import Mathlib

/-!
Verification of the wanderer-sde transformation pipeline.

The Go source is shallowly embedded in Lean 4: Go `float64` values are
modelled as exact rationals (`ℚ`), Go slices as `List`, Go maps as
association lists (with last-write-wins lookup where the code builds a map
by iteration), nullable `*int64` fields as `Option ℤ`, and in-place
mutation (bounds aggregation) as pure functions returning the updated
collection.  `sort.Slice` is modelled by `List.insertionSort` over the
reflexive closure of the comparator; on every input considered in the
theorems the sort keys are distinct, so the modelled output coincides with
any correct sorting of the slice.
-/

namespace WandererSDE

/-- Model of Go `math.Round` (round half away from zero) on rationals. -/
def goRound (x : ℚ) : ℤ :=
  if x < 0 then -⌊-x + 1/2⌋ else ⌊x + 1/2⌋

/-- Source `TruncateToTwoDigits` from `internal/transformer/security.go`:
`math.Floor(value*100) / 100`. -/
def TruncateToTwoDigits (value : ℚ) : ℚ :=
  (⌊value * 100⌋ : ℚ) / 100

/-- Source `GetTrueSecurity` from `internal/transformer/security.go`, embedded over
exact rationals. -/
def GetTrueSecurity (security : ℚ) : ℚ :=
  if 0 < security ∧ security < 5/100 then
    (⌈security * 10⌉ : ℚ) / 10
  else
    let truncated := TruncateToTwoDigits security
    let floor := (⌊truncated * 10⌋ : ℚ) / 10
    let diff := (goRound ((truncated - floor) * 100) : ℚ) / 100
    if diff < 5/100 then floor else (⌈truncated * 10⌉ : ℚ) / 10

/-- The piecewise reference definition of display security, written from the
specification text (§4.1): the very-low positive band returns
`ceil(raw*10)/10`; otherwise `truncated = floor(raw*100)/100`,
`flooredTenth = floor(truncated*10)/10`,
`diff = round((truncated - flooredTenth)*100)/100`, returning `flooredTenth`
when `diff < 0.05` and `ceil(truncated*10)/10` otherwise. -/
def displaySecurityRef (raw : ℚ) : ℚ :=
  if 0 < raw ∧ raw < 5/100 then
    (⌈raw * 10⌉ : ℚ) / 10
  else
    let truncated := (⌊raw * 100⌋ : ℚ) / 100
    let flooredTenth := (⌊truncated * 10⌋ : ℚ) / 10
    let diff := (goRound ((truncated - flooredTenth) * 100) : ℚ) / 100
    if diff < 5/100 then flooredTenth else (⌈truncated * 10⌉ : ℚ) / 10

/-- C1: for every input `raw`, `GetTrueSecurity raw` equals the piecewise
reference definition from the specification, and (being a total Lean
function) it is defined for every rational input, including inputs outside
`-1.0 .. 1.0`. -/
theorem getTrueSecurity_eq_displaySecurityRef :
    ∀ raw : ℚ, GetTrueSecurity raw = displaySecurityRef raw := by
  intro raw
  rfl

/-- Helper: evaluate a rational floor from its bracketing inequalities. -/
lemma int_floor_eval (q : ℚ) (n : ℤ) (h1 : (n : ℚ) ≤ q) (h2 : q < n + 1) :
    ⌊q⌋ = n :=
  Int.floor_eq_iff.mpr ⟨h1, h2⟩

/-- Helper: evaluate a rational ceiling from its bracketing inequalities. -/
lemma int_ceil_eval (q : ℚ) (n : ℤ) (h1 : (n : ℚ) - 1 < q) (h2 : q ≤ n) :
    ⌈q⌉ = n :=
  Int.ceil_eq_iff.mpr ⟨h1, h2⟩

/-- Helper: evaluate `goRound` on a nonnegative argument. -/
lemma goRound_eval (x : ℚ) (n : ℤ) (h0 : ¬x < 0) (h1 : (n : ℚ) ≤ x + 1/2)
    (h2 : x + 1/2 < n + 1) : goRound x = n := by
  rw [goRound, if_neg h0]
  exact int_floor_eval _ _ h1 h2

/-- Helper: evaluate `GetTrueSecurity` in the very-low positive band. -/
lemma getTrueSecurity_low (security : ℚ) (c : ℤ)
    (h : 0 < security ∧ security < 5/100) (hc : ⌈security * 10⌉ = c) :
    GetTrueSecurity security = (c : ℚ) / 10 := by
  rw [GetTrueSecurity, if_pos h, hc]

/-- Helper: evaluate `GetTrueSecurity` in the round-down branch, given the
values of the intermediate floor and rounding computations. -/
lemma getTrueSecurity_round_down (security : ℚ) (t f d : ℤ)
    (hcond : ¬(0 < security ∧ security < 5/100))
    (ht : ⌊security * 100⌋ = t)
    (hf : ⌊(t : ℚ) / 100 * 10⌋ = f)
    (hd : goRound (((t : ℚ) / 100 - (f : ℚ) / 10) * 100) = d)
    (hlt : (d : ℚ) / 100 < 5/100) :
    GetTrueSecurity security = (f : ℚ) / 10 := by
  rw [GetTrueSecurity, if_neg hcond]
  simp only [TruncateToTwoDigits, ht, hf, hd]
  rw [if_pos hlt]

/-- C3: `GetTrueSecurity` returns exactly `0.1` on the whole band
`0 < r < 0.05`, and the concrete cases `0.9459 ↦ 0.9`, `0.04 ↦ 0.1`,
`-1.0 ↦ -1.0` hold. -/
theorem getTrueSecurity_low_band_and_concrete :
    (∀ r : ℚ, 0 < r → r < 5/100 → GetTrueSecurity r = 1/10) ∧
      GetTrueSecurity (9459/10000) = 9/10 ∧
      GetTrueSecurity (4/100) = 1/10 ∧
      GetTrueSecurity (-1) = -1 := by
  refine ⟨?_, ?_, ?_, ?_⟩
  · intro r hr0 hr5
    have h1 : GetTrueSecurity r = ((1 : ℤ) : ℚ) / 10 := by
      refine getTrueSecurity_low r 1 ⟨hr0, hr5⟩ ?_
      refine int_ceil_eval _ _ ?_ ?_
      · push_cast
        linarith
      · push_cast
        linarith
    rw [h1]
    norm_num
  · have h9 : GetTrueSecurity (9459/10000) = ((9 : ℤ) : ℚ) / 10 := by
      refine getTrueSecurity_round_down _ 94 9 4 (by norm_num) ?_ ?_ ?_ (by norm_num)
      · exact int_floor_eval _ _ (by norm_num) (by norm_num)
      · exact int_floor_eval _ _ (by norm_num) (by norm_num)
      · exact goRound_eval _ _ (by norm_num) (by norm_num) (by norm_num)
    rw [h9]
    norm_num
  · have h4 : GetTrueSecurity (4/100) = ((1 : ℤ) : ℚ) / 10 := by
      refine getTrueSecurity_low _ 1 (by norm_num) ?_
      exact int_ceil_eval _ _ (by norm_num) (by norm_num)
    rw [h4]
    norm_num
  · have hm : GetTrueSecurity (-1) = ((-10 : ℤ) : ℚ) / 10 := by
      refine getTrueSecurity_round_down _ (-100) (-10) 0 (by norm_num) ?_ ?_ ?_ (by norm_num)
      · exact int_floor_eval _ _ (by norm_num) (by norm_num)
      · exact int_floor_eval _ _ (by norm_num) (by norm_num)
      · exact goRound_eval _ _ (by norm_num) (by norm_num) (by norm_num)
    rw [hm]
    norm_num

/-- Witness for C3: the band hypothesis is satisfiable, e.g. at `r = 1/100`. -/
theorem getTrueSecurity_low_band_witness :
    (0 : ℚ) < 1/100 ∧ (1 : ℚ)/100 < 5/100 ∧ GetTrueSecurity (1/100) = 1/10 :=
  ⟨by norm_num, by norm_num,
    getTrueSecurity_low_band_and_concrete.1 (1/100) (by norm_num) (by norm_num)⟩

/-! ### Jump deduplication (`ParseStargates`, parser) -/

/-- Source `models.SystemJump`: a stargate connection, with the two endpoint system
IDs and the four enrichment fields (zero when unresolved). -/
structure SystemJump where
  FromSolarSystemID : ℤ
  ToSolarSystemID : ℤ
  FromRegionID : ℤ
  FromConstellationID : ℤ
  ToRegionID : ℤ
  ToConstellationID : ℤ
  deriving DecidableEq, Repr

/-- Source `SDEStargateDestination` from the parser. -/
structure SDEStargateDestination where
  SolarSystemID : ℤ
  StargateID : ℤ
  deriving DecidableEq, Repr

/-- Source `SDEMapStargate` from the parser. -/
structure SDEMapStargate where
  SolarSystemID : ℤ
  Destination : SDEStargateDestination
  TypeID : ℤ
  deriving DecidableEq, Repr

/-- The canonical unordered pair of `ParseStargates`: smaller ID first. -/
def canonPair (f t : ℤ) : ℤ × ℤ :=
  if f < t then (f, t) else (t, f)

/-- Set-insertion into the jump set (a Go map keyed by the pair),
modelled as ordered insertion without duplicates. -/
def insertPair (acc : List (ℤ × ℤ)) (p : ℤ × ℤ) : List (ℤ × ℤ) :=
  if p ∈ acc then acc else acc ++ [p]

/-- One loop iteration of `ParseStargates`: skip records with a zero
endpoint, otherwise insert the canonical pair. -/
def stargateStep (acc : List (ℤ × ℤ)) (g : SDEMapStargate) : List (ℤ × ℤ) :=
  if g.SolarSystemID = 0 ∨ g.Destination.SolarSystemID = 0 then acc
  else insertPair acc (canonPair g.SolarSystemID g.Destination.SolarSystemID)

/-- The deduplicated jump set built by the `ParseStargates` loop. -/
def jumpSetOf (gates : List SDEMapStargate) : List (ℤ × ℤ) :=
  gates.foldl stargateStep []

/-- Conversion of a canonical pair to a `models.SystemJump`. -/
def mkJump (p : ℤ × ℤ) : SystemJump :=
  ⟨p.1, p.2, 0, 0, 0, 0⟩

/-- The comparator of `ParseStargates`' final `sort.Slice` (lexicographic on
(from, to)), taken reflexively. -/
def jumpLE (a b : SystemJump) : Prop :=
  a.FromSolarSystemID < b.FromSolarSystemID ∨
    (a.FromSolarSystemID = b.FromSolarSystemID ∧
      a.ToSolarSystemID ≤ b.ToSolarSystemID)

instance : DecidableRel jumpLE := fun a b => by
  unfold jumpLE
  infer_instance

instance : IsTotal SystemJump jumpLE :=
  ⟨fun a b => by
    unfold jumpLE
    omega⟩

instance : IsTrans SystemJump jumpLE :=
  ⟨fun a b c hab hbc => by
    unfold jumpLE at *
    omega⟩

/-- Source `ParseStargates` from the parser (`src/unnamed/part_005`), with the YAML
file reading abstracted away: it receives the list of raw stargate records
(the values of the parsed map), deduplicates them into canonical pairs and
returns the sorted jump list. -/
def ParseStargates (gates : List SDEMapStargate) : List SystemJump :=
  List.insertionSort jumpLE ((jumpSetOf gates).map mkJump)

lemma stargateStep_insert (acc : List (ℤ × ℤ)) (g : SDEMapStargate)
    (h : ¬(g.SolarSystemID = 0 ∨ g.Destination.SolarSystemID = 0)) :
    stargateStep acc g =
      insertPair acc (canonPair g.SolarSystemID g.Destination.SolarSystemID) := by
  rw [stargateStep, if_neg h]

lemma insertPair_of_mem (acc : List (ℤ × ℤ)) (p : ℤ × ℤ) (h : p ∈ acc) :
    insertPair acc p = acc := by
  rw [insertPair, if_pos h]

lemma insertPair_of_notMem (acc : List (ℤ × ℤ)) (p : ℤ × ℤ) (h : p ∉ acc) :
    insertPair acc p = acc ++ [p] := by
  rw [insertPair, if_neg h]

lemma canonPair_eq_min_max (f t : ℤ) : canonPair f t = (min f t, max f t) := by
  unfold canonPair
  split
  · next h => rw [min_eq_left h.le, max_eq_right h.le]
  · next h => rw [min_eq_right (not_lt.mp h), max_eq_left (not_lt.mp h)]

lemma canonPair_fst_le_snd (f t : ℤ) :
    (canonPair f t).1 ≤ (canonPair f t).2 := by
  unfold canonPair
  split <;> simp <;> omega

lemma canonPair_comm (f t : ℤ) : canonPair f t = canonPair t f := by
  unfold canonPair
  rcases lt_trichotomy f t with h | h | h
  · rw [if_pos h, if_neg (by omega)]
  · subst h
    rfl
  · rw [if_neg (by omega), if_pos h]

lemma stargateStep_fst_le_snd (acc : List (ℤ × ℤ)) (g : SDEMapStargate)
    (h : ∀ p ∈ acc, p.1 ≤ p.2) :
    ∀ p ∈ stargateStep acc g, p.1 ≤ p.2 := by
  unfold stargateStep insertPair
  split
  · exact h
  · split
    · exact h
    · intro p hp
      rcases List.mem_append.mp hp with hp' | hp'
      · exact h p hp'
      · rw [List.mem_singleton.mp hp']
        exact canonPair_fst_le_snd _ _

lemma stargateStep_nodup (acc : List (ℤ × ℤ)) (g : SDEMapStargate)
    (h : acc.Nodup) : (stargateStep acc g).Nodup := by
  unfold stargateStep insertPair
  split
  · exact h
  · split
    · exact h
    · next hmem =>
      simp [List.nodup_append, h, hmem]

lemma jumpSetOf_aux (gates : List SDEMapStargate) (acc : List (ℤ × ℤ))
    (h1 : acc.Nodup) (h2 : ∀ p ∈ acc, p.1 ≤ p.2) :
    (gates.foldl stargateStep acc).Nodup ∧
      ∀ p ∈ gates.foldl stargateStep acc, p.1 ≤ p.2 := by
  induction gates generalizing acc with
  | nil => exact ⟨h1, h2⟩
  | cons g gs ih =>
    exact ih _ (stargateStep_nodup _ _ h1) (stargateStep_fst_le_snd _ _ h2)

lemma mkJump_injective : Function.Injective mkJump := by
  intro p q h
  cases p
  cases q
  simpa [mkJump, SystemJump.mk.injEq, Prod.ext_iff] using h

/-- C2: `ParseStargates` discards gate records with a zero endpoint,
canonicalizes each pair with the smaller ID first and collapses duplicates:
for nonzero `A`, `B`, the two directed records `(A→B)` and `(B→A)` yield
exactly one jump `(min A B, max A B)`; and on any input the output pairs are
pairwise distinct and each satisfies `From ≤ To`. -/
theorem parseStargates_dedup_canonical :
    (∀ A B : ℤ, A ≠ 0 → B ≠ 0 →
      ParseStargates [⟨A, ⟨B, 1⟩, 0⟩, ⟨B, ⟨A, 2⟩, 0⟩] =
        [⟨min A B, max A B, 0, 0, 0, 0⟩]) ∧
      ∀ gates : List SDEMapStargate,
        (ParseStargates gates).Nodup ∧
          ∀ j ∈ ParseStargates gates,
            j.FromSolarSystemID ≤ j.ToSolarSystemID := by
  constructor
  · intro A B hA hB
    have hset : jumpSetOf [⟨A, ⟨B, 1⟩, 0⟩, ⟨B, ⟨A, 2⟩, 0⟩] =
        [(min A B, max A B)] := by
      have e1 : stargateStep ([] : List (ℤ × ℤ)) ⟨A, ⟨B, 1⟩, 0⟩ =
          [canonPair A B] := by
        rw [stargateStep_insert _ _ (by simp [hA, hB])]
        dsimp only
        rw [insertPair_of_notMem _ _ (List.not_mem_nil _), List.nil_append]
      unfold jumpSetOf
      simp only [List.foldl_cons, List.foldl_nil]
      rw [e1]
      rw [stargateStep_insert _ _ (by simp [hA, hB])]
      dsimp only
      rw [canonPair_comm B A]
      rw [insertPair_of_mem _ _ (List.mem_singleton_self _)]
      rw [canonPair_eq_min_max]
    rw [ParseStargates, hset]
    simp [mkJump]
  · intro gates
    have haux := jumpSetOf_aux gates [] List.nodup_nil (by simp)
    have hperm := List.perm_insertionSort jumpLE ((jumpSetOf gates).map mkJump)
    constructor
    · exact hperm.nodup_iff.mpr (haux.1.map mkJump_injective)
    · intro j hj
      have hj' : j ∈ (jumpSetOf gates).map mkJump := hperm.mem_iff.mp hj
      rcases List.mem_map.mp hj' with ⟨p, hp, rfl⟩
      exact haux.2 p hp

/-- Witness for C2: at `A = 5`, `B = 3` the two directed records collapse to
the single canonical jump `(3, 5)`. -/
theorem parseStargates_dedup_canonical_witness :
    (5 : ℤ) ≠ 0 ∧ (3 : ℤ) ≠ 0 ∧
      ParseStargates [⟨5, ⟨3, 1⟩, 0⟩, ⟨3, ⟨5, 2⟩, 0⟩] =
        [⟨3, 5, 0, 0, 0, 0⟩] := by
  refine ⟨by decide, by decide, ?_⟩
  have h := parseStargates_dedup_canonical.1 5 3 (by decide) (by decide)
  rw [show min (5 : ℤ) 3 = 3 by decide, show max (5 : ℤ) 3 = 5 by decide] at h
  exact h

/-! ### Jump enrichment (`transformSystemJumps`, transformer) -/

/-- Source `models.SolarSystem` (full CSV-era shape, as constructed by
`ParseSolarSystems` and consumed by `ToCSVRow` and the transformer). -/
structure SolarSystem where
  SolarSystemID : ℤ
  RegionID : ℤ
  ConstellationID : ℤ
  SolarSystemName : String
  X : ℚ
  Y : ℚ
  Z : ℚ
  XMin : ℚ
  XMax : ℚ
  YMin : ℚ
  YMax : ℚ
  ZMin : ℚ
  ZMax : ℚ
  Luminosity : ℚ
  Border : Bool
  Fringe : Bool
  Corridor : Bool
  Hub : Bool
  International : Bool
  Regional : Bool
  Constellation : String
  Security : ℚ
  FactionID : Option ℤ
  Radius : ℚ
  SunTypeID : Option ℤ
  SecurityClass : String
  deriving DecidableEq, Repr

/-- The Go `systemLookup` map of `transformSystemJumps`, built by iterating
the system slice (a later entry with the same ID overwrites an earlier
one). -/
def lookupSystem (systems : List SolarSystem) (id : ℤ) : Option SolarSystem :=
  systems.foldl (fun acc s => if s.SolarSystemID = id then some s else acc) none

/-- The per-edge body of `transformSystemJumps`: a fresh `SystemJump`
carrying the input endpoints, with each side's region/constellation filled
in only when the endpoint resolves in the lookup map. -/
def enrichJump (systems : List SolarSystem) (jump : SystemJump) : SystemJump :=
  let base : SystemJump :=
    ⟨jump.FromSolarSystemID, jump.ToSolarSystemID, 0, 0, 0, 0⟩
  let withFrom :=
    match lookupSystem systems jump.FromSolarSystemID with
    | some s => { base with FromRegionID := s.RegionID,
                            FromConstellationID := s.ConstellationID }
    | none => base
  match lookupSystem systems jump.ToSolarSystemID with
  | some s => { withFrom with ToRegionID := s.RegionID,
                              ToConstellationID := s.ConstellationID }
  | none => withFrom

/-- Source `transformSystemJumps` from `internal/transformer/transformer.go`:
enrich every edge, then sort by (from, to). -/
def transformSystemJumps (jumps : List SystemJump)
    (systems : List SolarSystem) : List SystemJump :=
  List.insertionSort jumpLE (jumps.map (enrichJump systems))

lemma transformSystemJumps_perm (jumps : List SystemJump)
    (systems : List SolarSystem) :
    (transformSystemJumps jumps systems).Perm
      (jumps.map (enrichJump systems)) :=
  List.perm_insertionSort jumpLE _

lemma enrichJump_endpoints (systems : List SolarSystem) (j : SystemJump) :
    (enrichJump systems j).FromSolarSystemID = j.FromSolarSystemID ∧
      (enrichJump systems j).ToSolarSystemID = j.ToSolarSystemID := by
  cases hFrom : lookupSystem systems j.FromSolarSystemID <;>
    cases hTo : lookupSystem systems j.ToSolarSystemID <;>
      simp [enrichJump, hFrom, hTo]

/-- C6: during jump enrichment each endpoint is resolved against the system
collection; a resolved endpoint contributes its region/constellation IDs, an
unresolved endpoint leaves that side's enrichment fields at zero, every edge
is still emitted (the output is a permutation of the enriched inputs), and
the function is total (no error path exists). -/
theorem transformSystemJumps_tolerates_dangling :
    ∀ (jumps : List SystemJump) (systems : List SolarSystem),
      (transformSystemJumps jumps systems).Perm
          (jumps.map (enrichJump systems)) ∧
        (∀ j ∈ jumps, enrichJump systems j ∈ transformSystemJumps jumps systems) ∧
        ∀ j : SystemJump,
          (∀ s, lookupSystem systems j.FromSolarSystemID = some s →
            (enrichJump systems j).FromRegionID = s.RegionID ∧
              (enrichJump systems j).FromConstellationID = s.ConstellationID) ∧
          (lookupSystem systems j.FromSolarSystemID = none →
            (enrichJump systems j).FromRegionID = 0 ∧
              (enrichJump systems j).FromConstellationID = 0) ∧
          (∀ s, lookupSystem systems j.ToSolarSystemID = some s →
            (enrichJump systems j).ToRegionID = s.RegionID ∧
              (enrichJump systems j).ToConstellationID = s.ConstellationID) ∧
          (lookupSystem systems j.ToSolarSystemID = none →
            (enrichJump systems j).ToRegionID = 0 ∧
              (enrichJump systems j).ToConstellationID = 0) := by
  intro jumps systems
  refine ⟨transformSystemJumps_perm jumps systems, ?_, ?_⟩
  · intro j hj
    exact (transformSystemJumps_perm jumps systems).mem_iff.mpr
      (List.mem_map_of_mem _ hj)
  · intro j
    refine ⟨?_, ?_, ?_, ?_⟩ <;> intros <;>
      cases hTo : lookupSystem systems j.ToSolarSystemID <;>
        cases hFrom : lookupSystem systems j.FromSolarSystemID <;>
          simp_all [enrichJump]

/-- A concrete solar system (ID 30, region 10, constellation 20) used as a
witness input. -/
def sysA : SolarSystem :=
  ⟨30, 10, 20, "Alpha", 0, 0, 0, 0, 0, 0, 0, 0, 0, 0,
    false, false, false, false, false, false, "None", 0, none, 0, none, ""⟩

/-- Witness for C6: with the single system `sysA`, the edge `30 → 99` has a
resolved from-side (fields 10/20) and a dangling to-side (fields 0/0). -/
theorem transformSystemJumps_tolerates_dangling_witness :
    lookupSystem [sysA] 30 = some sysA ∧
      lookupSystem [sysA] 99 = none ∧
      (enrichJump [sysA] ⟨30, 99, 0, 0, 0, 0⟩).FromRegionID = 10 ∧
      (enrichJump [sysA] ⟨30, 99, 0, 0, 0, 0⟩).FromConstellationID = 20 ∧
      (enrichJump [sysA] ⟨30, 99, 0, 0, 0, 0⟩).ToRegionID = 0 ∧
      (enrichJump [sysA] ⟨30, 99, 0, 0, 0, 0⟩).ToConstellationID = 0 := by
  have hsome : lookupSystem [sysA] 30 = some sysA := by
    simp [lookupSystem, sysA]
  have hnone : lookupSystem [sysA] 99 = none := by
    simp [lookupSystem, sysA]
  obtain ⟨h1, _, _, h4⟩ :=
    (transformSystemJumps_tolerates_dangling [⟨30, 99, 0, 0, 0, 0⟩] [sysA]).2.2
      ⟨30, 99, 0, 0, 0, 0⟩
  exact ⟨hsome, hnone, (h1 sysA hsome).1, (h1 sysA hsome).2,
    (h4 hnone).1, (h4 hnone).2⟩

/-- C10: `transformSystemJumps` emits exactly one output edge per input edge
(the output is a permutation of the pointwise-enriched input, of the same
length), and enrichment preserves both endpoint IDs, touching only the four
region/constellation fields. -/
theorem transformSystemJumps_frame :
    ∀ (jumps : List SystemJump) (systems : List SolarSystem),
      (transformSystemJumps jumps systems).Perm
          (jumps.map (enrichJump systems)) ∧
        (transformSystemJumps jumps systems).length = jumps.length ∧
        ∀ j : SystemJump,
          (enrichJump systems j).FromSolarSystemID = j.FromSolarSystemID ∧
            (enrichJump systems j).ToSolarSystemID = j.ToSolarSystemID := by
  intro jumps systems
  refine ⟨transformSystemJumps_perm jumps systems, ?_,
    enrichJump_endpoints systems⟩
  rw [(transformSystemJumps_perm jumps systems).length_eq, List.length_map]

/-! ### Geometry aggregation (`bounds.go`) -/

/-- Source `models.Region` (full CSV-era shape). -/
structure Region where
  RegionID : ℤ
  RegionName : String
  X : ℚ
  Y : ℚ
  Z : ℚ
  XMin : ℚ
  XMax : ℚ
  YMin : ℚ
  YMax : ℚ
  ZMin : ℚ
  ZMax : ℚ
  FactionID : Option ℤ
  Nebula : ℤ
  Radius : ℚ
  deriving DecidableEq, Repr

/-- Source `models.Constellation` (full CSV-era shape). -/
structure Constellation where
  RegionID : ℤ
  ConstellationID : ℤ
  ConstellationName : String
  X : ℚ
  Y : ℚ
  Z : ℚ
  XMin : ℚ
  XMax : ℚ
  YMin : ℚ
  YMax : ℚ
  ZMin : ℚ
  ZMax : ℚ
  FactionID : Option ℤ
  Radius : ℚ
  deriving DecidableEq, Repr

/-- The per-region body of the `CalculateRegionBounds` loop: the systems
whose `RegionID` matches are grouped (in input order, matching the Go
`regionSystems` map); with no match the region is untouched, otherwise all
six bounds are set to the min/max folds started at the first child. -/
def regionBoundsUpdate (systems : List SolarSystem) (r : Region) : Region :=
  match systems.filter (fun s => s.RegionID == r.RegionID) with
  | [] => r
  | s0 :: rest =>
    { r with
      XMin := ((s0 :: rest).map SolarSystem.X).foldl min s0.X
      XMax := ((s0 :: rest).map SolarSystem.X).foldl max s0.X
      YMin := ((s0 :: rest).map SolarSystem.Y).foldl min s0.Y
      YMax := ((s0 :: rest).map SolarSystem.Y).foldl max s0.Y
      ZMin := ((s0 :: rest).map SolarSystem.Z).foldl min s0.Z
      ZMax := ((s0 :: rest).map SolarSystem.Z).foldl max s0.Z }

/-- Source `CalculateRegionBounds` from `internal/transformer/bounds.go`, with the
in-place slice mutation modelled as returning the rewritten slice. -/
def CalculateRegionBounds (regions : List Region)
    (systems : List SolarSystem) : List Region :=
  regions.map (regionBoundsUpdate systems)

/-- The per-constellation body of the `CalculateConstellationBounds` loop. -/
def constellationBoundsUpdate (systems : List SolarSystem)
    (c : Constellation) : Constellation :=
  match systems.filter (fun s => s.ConstellationID == c.ConstellationID) with
  | [] => c
  | s0 :: rest =>
    { c with
      XMin := ((s0 :: rest).map SolarSystem.X).foldl min s0.X
      XMax := ((s0 :: rest).map SolarSystem.X).foldl max s0.X
      YMin := ((s0 :: rest).map SolarSystem.Y).foldl min s0.Y
      YMax := ((s0 :: rest).map SolarSystem.Y).foldl max s0.Y
      ZMin := ((s0 :: rest).map SolarSystem.Z).foldl min s0.Z
      ZMax := ((s0 :: rest).map SolarSystem.Z).foldl max s0.Z }

/-- Source `CalculateConstellationBounds` from `internal/transformer/bounds.go`. -/
def CalculateConstellationBounds (constellations : List Constellation)
    (systems : List SolarSystem) : List Constellation :=
  constellations.map (constellationBoundsUpdate systems)

/-- The Go `regionFactions` map of `InheritFactionIDs` (later regions with
the same ID overwrite earlier ones). -/
def lookupRegionFaction (regions : List Region) (id : ℤ) : Option (Option ℤ) :=
  regions.foldl (fun acc r => if r.RegionID = id then some r.FactionID else acc)
    none

/-- Source `InheritFactionIDs` from `internal/transformer/bounds.go`: systems
without a faction inherit the (present, non-nil) faction of their region. -/
def InheritFactionIDs (systems : List SolarSystem)
    (regions : List Region) : List SolarSystem :=
  systems.map (fun s =>
    if s.FactionID = none then
      match lookupRegionFaction regions s.RegionID with
      | some (some f) => { s with FactionID := some f }
      | _ => s
    else s)

lemma foldl_min_le_init (l : List ℚ) (a : ℚ) : l.foldl min a ≤ a := by
  induction l generalizing a with
  | nil => exact le_refl a
  | cons x t ih => exact le_trans (ih (min a x)) (min_le_left a x)

lemma foldl_min_le_mem (l : List ℚ) (a : ℚ) :
    ∀ x ∈ l, l.foldl min a ≤ x := by
  induction l generalizing a with
  | nil => intro x hx; exact absurd hx (List.not_mem_nil x)
  | cons y t ih =>
    intro x hx
    rcases List.mem_cons.mp hx with h | h
    · subst h
      exact le_trans (foldl_min_le_init t (min a x)) (min_le_right a x)
    · exact ih (min a y) x h

lemma foldl_min_mem_or_init (l : List ℚ) (a : ℚ) :
    l.foldl min a = a ∨ l.foldl min a ∈ l := by
  induction l generalizing a with
  | nil => exact Or.inl rfl
  | cons y t ih =>
    rcases ih (min a y) with h | h
    · rcases min_choice a y with hm | hm
      · exact Or.inl (by rw [List.foldl_cons, h, hm])
      · refine Or.inr ?_
        rw [List.foldl_cons, h, hm]
        exact List.mem_cons_self y t
    · exact Or.inr (List.mem_cons_of_mem y h)

lemma foldl_max_init_le (l : List ℚ) (a : ℚ) : a ≤ l.foldl max a := by
  induction l generalizing a with
  | nil => exact le_refl a
  | cons x t ih => exact le_trans (le_max_left a x) (ih (max a x))

lemma foldl_max_mem_le (l : List ℚ) (a : ℚ) :
    ∀ x ∈ l, x ≤ l.foldl max a := by
  induction l generalizing a with
  | nil => intro x hx; exact absurd hx (List.not_mem_nil x)
  | cons y t ih =>
    intro x hx
    rcases List.mem_cons.mp hx with h | h
    · subst h
      exact le_trans (le_max_right a x) (foldl_max_init_le t (max a x))
    · exact ih (max a y) x h

lemma foldl_max_mem_or_init (l : List ℚ) (a : ℚ) :
    l.foldl max a = a ∨ l.foldl max a ∈ l := by
  induction l generalizing a with
  | nil => exact Or.inl rfl
  | cons y t ih =>
    rcases ih (max a y) with h | h
    · rcases max_choice a y with hm | hm
      · exact Or.inl (by rw [List.foldl_cons, h, hm])
      · refine Or.inr ?_
        rw [List.foldl_cons, h, hm]
        exact List.mem_cons_self y t
    · exact Or.inr (List.mem_cons_of_mem y h)

lemma regionBoundsUpdate_nil (systems : List SolarSystem) (r : Region)
    (h : systems.filter (fun s => s.RegionID == r.RegionID) = []) :
    regionBoundsUpdate systems r = r := by
  unfold regionBoundsUpdate
  rw [h]

lemma regionBoundsUpdate_cons (systems : List SolarSystem) (r : Region)
    (s0 : SolarSystem) (rest : List SolarSystem)
    (h : systems.filter (fun s => s.RegionID == r.RegionID) = s0 :: rest) :
    regionBoundsUpdate systems r =
      { r with
        XMin := ((s0 :: rest).map SolarSystem.X).foldl min s0.X
        XMax := ((s0 :: rest).map SolarSystem.X).foldl max s0.X
        YMin := ((s0 :: rest).map SolarSystem.Y).foldl min s0.Y
        YMax := ((s0 :: rest).map SolarSystem.Y).foldl max s0.Y
        ZMin := ((s0 :: rest).map SolarSystem.Z).foldl min s0.Z
        ZMax := ((s0 :: rest).map SolarSystem.Z).foldl max s0.Z } := by
  unfold regionBoundsUpdate
  rw [h]

lemma constellationBoundsUpdate_nil (systems : List SolarSystem)
    (c : Constellation)
    (h : systems.filter (fun s => s.ConstellationID == c.ConstellationID) = []) :
    constellationBoundsUpdate systems c = c := by
  unfold constellationBoundsUpdate
  rw [h]

lemma constellationBoundsUpdate_cons (systems : List SolarSystem)
    (c : Constellation) (s0 : SolarSystem) (rest : List SolarSystem)
    (h : systems.filter (fun s => s.ConstellationID == c.ConstellationID) =
      s0 :: rest) :
    constellationBoundsUpdate systems c =
      { c with
        XMin := ((s0 :: rest).map SolarSystem.X).foldl min s0.X
        XMax := ((s0 :: rest).map SolarSystem.X).foldl max s0.X
        YMin := ((s0 :: rest).map SolarSystem.Y).foldl min s0.Y
        YMax := ((s0 :: rest).map SolarSystem.Y).foldl max s0.Y
        ZMin := ((s0 :: rest).map SolarSystem.Z).foldl min s0.Z
        ZMax := ((s0 :: rest).map SolarSystem.Z).foldl max s0.Z } := by
  unfold constellationBoundsUpdate
  rw [h]

lemma fold_min_facts (f : SolarSystem → ℚ) (s0 : SolarSystem)
    (rest : List SolarSystem) :
    (∀ s ∈ s0 :: rest, ((s0 :: rest).map f).foldl min (f s0) ≤ f s) ∧
      ((s0 :: rest).map f).foldl min (f s0) ∈ (s0 :: rest).map f := by
  constructor
  · intro s hs
    exact foldl_min_le_mem _ _ (f s) (List.mem_map_of_mem f hs)
  · rcases foldl_min_mem_or_init ((s0 :: rest).map f) (f s0) with h | h
    · rw [h]
      exact List.mem_map_of_mem f (List.mem_cons_self s0 rest)
    · exact h

lemma fold_max_facts (f : SolarSystem → ℚ) (s0 : SolarSystem)
    (rest : List SolarSystem) :
    (∀ s ∈ s0 :: rest, f s ≤ ((s0 :: rest).map f).foldl max (f s0)) ∧
      ((s0 :: rest).map f).foldl max (f s0) ∈ (s0 :: rest).map f := by
  constructor
  · intro s hs
    exact foldl_max_mem_le _ _ (f s) (List.mem_map_of_mem f hs)
  · rcases foldl_max_mem_or_init ((s0 :: rest).map f) (f s0) with h | h
    · rw [h]
      exact List.mem_map_of_mem f (List.mem_cons_self s0 rest)
    · exact h

/-- C5: `CalculateRegionBounds` / `CalculateConstellationBounds` rewrite
each parent from exactly the children whose foreign key matches its ID: a
parent with no matching children is returned completely unchanged; with
children, each of the six bounds is a lower/upper bound of the children's
coordinates on that axis and is attained by some child (hence it is the
componentwise min/max); a parent with exactly one child at `(x, y, z)` gets
`min = max = (x, y, z)` on all three axes and no other field changed. -/
theorem calculateBounds_envelope :
    ∀ (regions : List Region) (constellations : List Constellation)
      (systems : List SolarSystem),
      CalculateRegionBounds regions systems =
          regions.map (regionBoundsUpdate systems) ∧
        CalculateConstellationBounds constellations systems =
          constellations.map (constellationBoundsUpdate systems) ∧
        (∀ r : Region,
          (systems.filter (fun s => s.RegionID == r.RegionID) = [] →
              regionBoundsUpdate systems r = r) ∧
            (∀ s0 rest,
              systems.filter (fun s => s.RegionID == r.RegionID) = s0 :: rest →
                (∀ s ∈ s0 :: rest,
                  (regionBoundsUpdate systems r).XMin ≤ s.X ∧
                    s.X ≤ (regionBoundsUpdate systems r).XMax ∧
                    (regionBoundsUpdate systems r).YMin ≤ s.Y ∧
                    s.Y ≤ (regionBoundsUpdate systems r).YMax ∧
                    (regionBoundsUpdate systems r).ZMin ≤ s.Z ∧
                    s.Z ≤ (regionBoundsUpdate systems r).ZMax) ∧
                  ((regionBoundsUpdate systems r).XMin ∈
                      (s0 :: rest).map SolarSystem.X ∧
                    (regionBoundsUpdate systems r).XMax ∈
                      (s0 :: rest).map SolarSystem.X ∧
                    (regionBoundsUpdate systems r).YMin ∈
                      (s0 :: rest).map SolarSystem.Y ∧
                    (regionBoundsUpdate systems r).YMax ∈
                      (s0 :: rest).map SolarSystem.Y ∧
                    (regionBoundsUpdate systems r).ZMin ∈
                      (s0 :: rest).map SolarSystem.Z ∧
                    (regionBoundsUpdate systems r).ZMax ∈
                      (s0 :: rest).map SolarSystem.Z)) ∧
            ∀ s, systems.filter (fun x => x.RegionID == r.RegionID) = [s] →
              regionBoundsUpdate systems r =
                { r with XMin := s.X, XMax := s.X, YMin := s.Y, YMax := s.Y,
                         ZMin := s.Z, ZMax := s.Z }) ∧
        ∀ c : Constellation,
          (systems.filter (fun s => s.ConstellationID == c.ConstellationID) =
              [] → constellationBoundsUpdate systems c = c) ∧
            (∀ s0 rest,
              systems.filter
                  (fun s => s.ConstellationID == c.ConstellationID) =
                  s0 :: rest →
                (∀ s ∈ s0 :: rest,
                  (constellationBoundsUpdate systems c).XMin ≤ s.X ∧
                    s.X ≤ (constellationBoundsUpdate systems c).XMax ∧
                    (constellationBoundsUpdate systems c).YMin ≤ s.Y ∧
                    s.Y ≤ (constellationBoundsUpdate systems c).YMax ∧
                    (constellationBoundsUpdate systems c).ZMin ≤ s.Z ∧
                    s.Z ≤ (constellationBoundsUpdate systems c).ZMax) ∧
                  ((constellationBoundsUpdate systems c).XMin ∈
                      (s0 :: rest).map SolarSystem.X ∧
                    (constellationBoundsUpdate systems c).XMax ∈
                      (s0 :: rest).map SolarSystem.X ∧
                    (constellationBoundsUpdate systems c).YMin ∈
                      (s0 :: rest).map SolarSystem.Y ∧
                    (constellationBoundsUpdate systems c).YMax ∈
                      (s0 :: rest).map SolarSystem.Y ∧
                    (constellationBoundsUpdate systems c).ZMin ∈
                      (s0 :: rest).map SolarSystem.Z ∧
                    (constellationBoundsUpdate systems c).ZMax ∈
                      (s0 :: rest).map SolarSystem.Z)) ∧
            ∀ s,
              systems.filter
                  (fun x => x.ConstellationID == c.ConstellationID) = [s] →
                constellationBoundsUpdate systems c =
                  { c with XMin := s.X, XMax := s.X, YMin := s.Y, YMax := s.Y,
                           ZMin := s.Z, ZMax := s.Z } := by
  intro regions constellations systems
  refine ⟨rfl, rfl, ?_, ?_⟩
  · intro r
    refine ⟨regionBoundsUpdate_nil systems r, ?_, ?_⟩
    · intro s0 rest h
      rw [regionBoundsUpdate_cons systems r s0 rest h]
      dsimp only
      exact ⟨fun s hs =>
        ⟨(fold_min_facts SolarSystem.X s0 rest).1 s hs,
          (fold_max_facts SolarSystem.X s0 rest).1 s hs,
          (fold_min_facts SolarSystem.Y s0 rest).1 s hs,
          (fold_max_facts SolarSystem.Y s0 rest).1 s hs,
          (fold_min_facts SolarSystem.Z s0 rest).1 s hs,
          (fold_max_facts SolarSystem.Z s0 rest).1 s hs⟩,
        (fold_min_facts SolarSystem.X s0 rest).2,
        (fold_max_facts SolarSystem.X s0 rest).2,
        (fold_min_facts SolarSystem.Y s0 rest).2,
        (fold_max_facts SolarSystem.Y s0 rest).2,
        (fold_min_facts SolarSystem.Z s0 rest).2,
        (fold_max_facts SolarSystem.Z s0 rest).2⟩
    · intro s h
      rw [regionBoundsUpdate_cons systems r s [] h]
      simp
  · intro c
    refine ⟨constellationBoundsUpdate_nil systems c, ?_, ?_⟩
    · intro s0 rest h
      rw [constellationBoundsUpdate_cons systems c s0 rest h]
      dsimp only
      exact ⟨fun s hs =>
        ⟨(fold_min_facts SolarSystem.X s0 rest).1 s hs,
          (fold_max_facts SolarSystem.X s0 rest).1 s hs,
          (fold_min_facts SolarSystem.Y s0 rest).1 s hs,
          (fold_max_facts SolarSystem.Y s0 rest).1 s hs,
          (fold_min_facts SolarSystem.Z s0 rest).1 s hs,
          (fold_max_facts SolarSystem.Z s0 rest).1 s hs⟩,
        (fold_min_facts SolarSystem.X s0 rest).2,
        (fold_max_facts SolarSystem.X s0 rest).2,
        (fold_min_facts SolarSystem.Y s0 rest).2,
        (fold_max_facts SolarSystem.Y s0 rest).2,
        (fold_min_facts SolarSystem.Z s0 rest).2,
        (fold_max_facts SolarSystem.Z s0 rest).2⟩
    · intro s h
      rw [constellationBoundsUpdate_cons systems c s [] h]
      simp

/-- A concrete region (ID 1) with zero bounds, used as a witness input. -/
def regA : Region :=
  ⟨1, "RegA", 0, 0, 0, 0, 0, 0, 0, 0, 0, some 7, 0, 0⟩

/-- A concrete solar system in region 1 at `(1, 2, 3)`. -/
def sysB : SolarSystem :=
  ⟨31, 1, 2, "Beta", 1, 2, 3, 0, 0, 0, 0, 0, 0, 0,
    false, false, false, false, false, false, "None", 0, none, 0, none, ""⟩

/-- Witness for C5: region 1 with the single child `sysB` at `(1,2,3)` gets
collapsed bounds `min = max = (1,2,3)`, and with no children it is returned
unchanged. -/
theorem calculateBounds_envelope_witness :
    ([sysB].filter (fun s => s.RegionID == regA.RegionID) = [sysB]) ∧
      regionBoundsUpdate [sysB] regA =
        { regA with XMin := sysB.X, XMax := sysB.X, YMin := sysB.Y,
                    YMax := sysB.Y, ZMin := sysB.Z, ZMax := sysB.Z } ∧
      (([] : List SolarSystem).filter (fun s => s.RegionID == regA.RegionID) =
          []) ∧
      regionBoundsUpdate [] regA = regA := by
  have hfilter : [sysB].filter (fun s => s.RegionID == regA.RegionID) =
      [sysB] := by
    simp [sysB, regA]
  refine ⟨hfilter, ?_, rfl, ?_⟩
  · exact (calculateBounds_envelope [regA] [] [sysB]).2.2.1 regA |>.2.2 sysB
      hfilter
  · exact (calculateBounds_envelope [regA] [] []).2.2.1 regA |>.1 rfl

/-! ### The `Transform` pipeline (transformer.go) -/

/-- Source `models.SDEType`: a raw type record; localized name/description maps are
modelled as association lists. -/
structure SDEType where
  GroupID : ℤ
  Name : List (String × String)
  Description : List (String × String)
  Mass : ℚ
  Volume : ℚ
  Capacity : ℚ
  PortionSize : ℤ
  RaceID : ℤ
  BasePrice : ℚ
  Published : Bool
  MarketGroupID : ℤ
  IconID : ℤ
  SoundID : ℤ
  GraphicID : ℤ
  deriving DecidableEq, Repr

/-- Source `models.InvType`: the transformed output type record. -/
structure InvType where
  TypeID : ℤ
  GroupID : ℤ
  TypeName : String
  Description : String
  Mass : ℚ
  Volume : ℚ
  Capacity : ℚ
  PortionSize : ℤ
  RaceID : Option ℤ
  BasePrice : ℚ
  Published : Bool
  MarketGroupID : Option ℤ
  IconID : Option ℤ
  SoundID : Option ℤ
  GraphicID : Option ℤ
  deriving DecidableEq, Repr

/-- Source `models.SDEGroup`: a raw group record. -/
structure SDEGroup where
  CategoryID : ℤ
  Name : List (String × String)
  IconID : ℤ
  UseBasePrice : Bool
  Anchored : Bool
  Anchorable : Bool
  FittableNonSingleton : Bool
  Published : Bool
  deriving DecidableEq, Repr

/-- Source `models.InvGroup`: the transformed output group record. -/
structure InvGroup where
  GroupID : ℤ
  CategoryID : ℤ
  GroupName : String
  IconID : Option ℤ
  UseBasePrice : Bool
  Anchored : Bool
  Anchorable : Bool
  FittableNonSingleton : Bool
  Published : Bool
  deriving DecidableEq, Repr

/-- Source `models.WormholeClassLocation`. -/
structure WormholeClassLocation where
  LocationID : ℤ
  WormholeClassID : ℤ
  deriving DecidableEq, Repr

/-- Go map indexing `m["en"]` on a localized string map: the zero value
(empty string) when the key is absent. -/
def localized (m : List (String × String)) (key : String) : String :=
  (m.lookup key).getD ""

/-- Source `models.Int64Ptr`: nil for zero, a pointer to the value otherwise. -/
def Int64Ptr (v : ℤ) : Option ℤ :=
  if v = 0 then none else some v

/-- Source `parser.ParseResult` (fields consumed by `Transform`); the Go
`map[int64]SDEType` / `map[int64]SDEGroup` inputs are modelled as
association lists in iteration order. -/
structure ParseResult where
  Regions : List Region
  Constellations : List Constellation
  SolarSystems : List SolarSystem
  Types : List (ℤ × SDEType)
  Groups : List (ℤ × SDEGroup)
  WormholeClasses : List WormholeClassLocation
  SystemJumps : List SystemJump
  deriving Repr

/-- Source `models.UniverseData`. -/
structure UniverseData where
  Regions : List Region
  Constellations : List Constellation
  SolarSystems : List SolarSystem
  deriving Repr

/-- Source `models.ConvertedData`. -/
structure ConvertedData where
  Universe : UniverseData
  InvTypes : List InvType
  InvGroups : List InvGroup
  WormholeClasses : List WormholeClassLocation
  SystemJumps : List SystemJump
  deriving Repr

/-- Comparator of `sortRegions` (reflexive closure). -/
def regionLE (a b : Region) : Prop := a.RegionID ≤ b.RegionID

/-- Comparator of `sortConstellations` (reflexive closure). -/
def constellationLE (a b : Constellation) : Prop :=
  a.ConstellationID ≤ b.ConstellationID

/-- Comparator of `transformSolarSystems`' sort (reflexive closure). -/
def solarLE (a b : SolarSystem) : Prop := a.SolarSystemID ≤ b.SolarSystemID

/-- Comparator of `transformTypes`' sort (reflexive closure). -/
def invTypeLE (a b : InvType) : Prop := a.TypeID ≤ b.TypeID

/-- Comparator of `transformGroups`' sort (reflexive closure). -/
def invGroupLE (a b : InvGroup) : Prop := a.GroupID ≤ b.GroupID

/-- Comparator of `sortWormholeClasses` (reflexive closure). -/
def wormholeLE (a b : WormholeClassLocation) : Prop :=
  a.LocationID ≤ b.LocationID

instance : DecidableRel regionLE := fun a b => by unfold regionLE; infer_instance

instance : IsTotal Region regionLE := ⟨fun a b => le_total a.RegionID b.RegionID⟩

instance : IsTrans Region regionLE := ⟨fun _ _ _ => le_trans⟩

instance : DecidableRel constellationLE := fun a b => by
  unfold constellationLE
  infer_instance

instance : IsTotal Constellation constellationLE :=
  ⟨fun a b => le_total a.ConstellationID b.ConstellationID⟩

instance : IsTrans Constellation constellationLE := ⟨fun _ _ _ => le_trans⟩

instance : DecidableRel solarLE := fun a b => by unfold solarLE; infer_instance

instance : IsTotal SolarSystem solarLE :=
  ⟨fun a b => le_total a.SolarSystemID b.SolarSystemID⟩

instance : IsTrans SolarSystem solarLE := ⟨fun _ _ _ => le_trans⟩

instance : DecidableRel invTypeLE := fun a b => by
  unfold invTypeLE
  infer_instance

instance : IsTotal InvType invTypeLE := ⟨fun a b => le_total a.TypeID b.TypeID⟩

instance : IsTrans InvType invTypeLE := ⟨fun _ _ _ => le_trans⟩

instance : DecidableRel invGroupLE := fun a b => by
  unfold invGroupLE
  infer_instance

instance : IsTotal InvGroup invGroupLE := ⟨fun a b => le_total a.GroupID b.GroupID⟩

instance : IsTrans InvGroup invGroupLE := ⟨fun _ _ _ => le_trans⟩

instance : DecidableRel wormholeLE := fun a b => by
  unfold wormholeLE
  infer_instance

instance : IsTotal WormholeClassLocation wormholeLE :=
  ⟨fun a b => le_total a.LocationID b.LocationID⟩

instance : IsTrans WormholeClassLocation wormholeLE := ⟨fun _ _ _ => le_trans⟩

/-- Source `transformSolarSystems`: copy each system, recompute only `Security`,
then sort by system ID. -/
def transformSolarSystems (systems : List SolarSystem) : List SolarSystem :=
  List.insertionSort solarLE
    (systems.map (fun s => { s with Security := GetTrueSecurity s.Security }))

/-- Source `sortRegions`: regions sorted by ID. -/
def sortRegions (regions : List Region) : List Region :=
  List.insertionSort regionLE regions

/-- Source `sortConstellations`: constellations sorted by ID. -/
def sortConstellations (constellations : List Constellation) :
    List Constellation :=
  List.insertionSort constellationLE constellations

/-- Source `sortWormholeClasses`: wormhole class locations sorted by location ID. -/
def sortWormholeClasses (classes : List WormholeClassLocation) :
    List WormholeClassLocation :=
  List.insertionSort wormholeLE classes

/-- Source `transformTypes`: convert every raw type record to `InvType` (selecting
the `en` locale, wrapping optional IDs) and sort by type ID. -/
def transformTypes (types : List (ℤ × SDEType)) : List InvType :=
  List.insertionSort invTypeLE
    (types.map (fun p =>
      { TypeID := p.1
        GroupID := p.2.GroupID
        TypeName := localized p.2.Name "en"
        Description := localized p.2.Description "en"
        Mass := p.2.Mass
        Volume := p.2.Volume
        Capacity := p.2.Capacity
        PortionSize := p.2.PortionSize
        RaceID := Int64Ptr p.2.RaceID
        BasePrice := p.2.BasePrice
        Published := p.2.Published
        MarketGroupID := Int64Ptr p.2.MarketGroupID
        IconID := Int64Ptr p.2.IconID
        SoundID := Int64Ptr p.2.SoundID
        GraphicID := Int64Ptr p.2.GraphicID }))

/-- Source `transformGroups`: convert every raw group record to `InvGroup` and sort
by group ID. -/
def transformGroups (groups : List (ℤ × SDEGroup)) : List InvGroup :=
  List.insertionSort invGroupLE
    (groups.map (fun p =>
      { GroupID := p.1
        CategoryID := p.2.CategoryID
        GroupName := localized p.2.Name "en"
        IconID := Int64Ptr p.2.IconID
        UseBasePrice := p.2.UseBasePrice
        Anchored := p.2.Anchored
        Anchorable := p.2.Anchorable
        FittableNonSingleton := p.2.FittableNonSingleton
        Published := p.2.Published }))

/-- Source `Transform` from `internal/transformer/transformer.go` (the CSV-era
variant at lines 263–334): security transformation on systems, sorting of
regions/constellations/wormhole classes, type/group conversion, and jump
enrichment against the transformed systems.  The Go function also returns
an always-`nil` error and, under `Verbose`, prints progress; both are
dropped here.  It performs no bounds aggregation and no faction
inheritance. -/
def Transform (pr : ParseResult) : ConvertedData :=
  let systems := transformSolarSystems pr.SolarSystems
  { Universe :=
      { Regions := sortRegions pr.Regions
        Constellations := sortConstellations pr.Constellations
        SolarSystems := systems }
    InvTypes := transformTypes pr.Types
    InvGroups := transformGroups pr.Groups
    WormholeClasses := sortWormholeClasses pr.WormholeClasses
    SystemJumps := transformSystemJumps pr.SystemJumps systems }

/-- Source `models.ValidationResult`. -/
structure ValidationResult where
  SolarSystems : ℕ
  Regions : ℕ
  Constellations : ℕ
  InvTypes : ℕ
  InvGroups : ℕ
  SystemJumps : ℕ
  WormholeClasses : ℕ
  Warnings : List String
  Errors : List String
  deriving DecidableEq, Repr

/-- The warning text of `Validate`'s minimum-count checks
(`"<label> count (<actual>) is below expected minimum (<expected>)"`). -/
def warnMsg (label : String) (actual expected : ℕ) : String :=
  label ++ " count (" ++ toString actual ++
    ") is below expected minimum (" ++ toString expected ++ ")"

/-- Source `Validate` from `internal/transformer/transformer.go` (lines 493–558):
record the seven collection counts, append one warning per below-minimum
check (thresholds 8000/100/1000/30000/10000 for solar systems, regions,
constellations, types and system jumps), and one hard error per empty
foundational collection. -/
def Validate (data : ConvertedData) : ValidationResult :=
  let nSolar := data.Universe.SolarSystems.length
  let nRegions := data.Universe.Regions.length
  let nConst := data.Universe.Constellations.length
  let nTypes := data.InvTypes.length
  let nGroups := data.InvGroups.length
  let nJumps := data.SystemJumps.length
  let nWormholes := data.WormholeClasses.length
  { SolarSystems := nSolar
    Regions := nRegions
    Constellations := nConst
    InvTypes := nTypes
    InvGroups := nGroups
    SystemJumps := nJumps
    WormholeClasses := nWormholes
    Warnings :=
      (if nSolar < 8000 then [warnMsg "Solar system" nSolar 8000] else []) ++
        (if nRegions < 100 then [warnMsg "Region" nRegions 100] else []) ++
        (if nConst < 1000 then [warnMsg "Constellation" nConst 1000] else []) ++
        (if nTypes < 30000 then [warnMsg "Type" nTypes 30000] else []) ++
        (if nJumps < 10000 then [warnMsg "System jump" nJumps 10000] else [])
    Errors :=
      (if nSolar = 0 then ["No solar systems found"] else []) ++
        (if nRegions = 0 then ["No regions found"] else []) ++
        (if nConst = 0 then ["No constellations found"] else []) }

/-- C7: every collection produced by `Transform` is sorted before reaching
the Validator: regions, constellations, solar systems, types, groups and
wormhole class locations ascending by their respective ID, and system jumps
lexicographically by (from, to); hence every adjacent pair satisfies
`key x ≤ key y`. -/
theorem transform_output_sorted :
    ∀ pr : ParseResult,
      List.Sorted regionLE (Transform pr).Universe.Regions ∧
        List.Sorted constellationLE (Transform pr).Universe.Constellations ∧
        List.Sorted solarLE (Transform pr).Universe.SolarSystems ∧
        List.Sorted invTypeLE (Transform pr).InvTypes ∧
        List.Sorted invGroupLE (Transform pr).InvGroups ∧
        List.Sorted wormholeLE (Transform pr).WormholeClasses ∧
        List.Sorted jumpLE (Transform pr).SystemJumps := by
  intro pr
  exact ⟨List.sorted_insertionSort regionLE _,
    List.sorted_insertionSort constellationLE _,
    List.sorted_insertionSort solarLE _,
    List.sorted_insertionSort invTypeLE _,
    List.sorted_insertionSort invGroupLE _,
    List.sorted_insertionSort wormholeLE _,
    List.sorted_insertionSort jumpLE _⟩

/-- C8: `Validate` is total (it always returns a structured result with
warnings and errors); its error list is non-empty exactly when one of the
three foundational collections is empty, with one error per empty
foundational collection and no error from any other condition. -/
theorem validate_errors_characterization :
    ∀ data : ConvertedData,
      ((Validate data).Errors ≠ [] ↔
          (data.Universe.SolarSystems = [] ∨ data.Universe.Regions = [] ∨
            data.Universe.Constellations = [])) ∧
        (Validate data).Errors.length =
          ((if data.Universe.SolarSystems = [] then 1 else 0) +
            (if data.Universe.Regions = [] then 1 else 0) +
            (if data.Universe.Constellations = [] then 1 else 0)) := by
  intro data
  dsimp only [Validate]
  rcases eq_or_ne data.Universe.SolarSystems [] with h1 | h1 <;>
    rcases eq_or_ne data.Universe.Regions [] with h2 | h2 <;>
      rcases eq_or_ne data.Universe.Constellations [] with h3 | h3 <;>
        simp [h1, h2, h3, List.length_eq_zero]

/-- Amended C9: `Validate` performs minimum-count checks on five of the
seven collections (solar systems, regions, constellations, types and system
jumps — item groups and wormhole classes have no threshold): each
below-minimum count appends exactly one warning carrying the actual and
expected counts, the checks accumulate without short-circuiting, and
below-minimum counts never produce an error (with non-empty foundational
collections the error list stays empty). -/
theorem validate_warning_checks :
    ∀ data : ConvertedData,
      (Validate data).Warnings.length =
          (((((if data.Universe.SolarSystems.length < 8000 then 1 else 0) +
            (if data.Universe.Regions.length < 100 then 1 else 0)) +
            (if data.Universe.Constellations.length < 1000 then 1 else 0)) +
            (if data.InvTypes.length < 30000 then 1 else 0)) +
            (if data.SystemJumps.length < 10000 then 1 else 0)) ∧
        (data.Universe.SolarSystems.length < 8000 →
          warnMsg "Solar system" data.Universe.SolarSystems.length 8000 ∈
            (Validate data).Warnings) ∧
        (data.Universe.Regions.length < 100 →
          warnMsg "Region" data.Universe.Regions.length 100 ∈
            (Validate data).Warnings) ∧
        (data.Universe.Constellations.length < 1000 →
          warnMsg "Constellation" data.Universe.Constellations.length 1000 ∈
            (Validate data).Warnings) ∧
        (data.InvTypes.length < 30000 →
          warnMsg "Type" data.InvTypes.length 30000 ∈
            (Validate data).Warnings) ∧
        (data.SystemJumps.length < 10000 →
          warnMsg "System jump" data.SystemJumps.length 10000 ∈
            (Validate data).Warnings) ∧
        (data.Universe.SolarSystems ≠ [] → data.Universe.Regions ≠ [] →
          data.Universe.Constellations ≠ [] → (Validate data).Errors = []) := by
  intro data
  refine ⟨?_, ?_, ?_, ?_, ?_, ?_, ?_⟩
  · dsimp only [Validate]
    simp only [List.length_append, apply_ite List.length, List.length_cons,
      List.length_nil]
  · intro h
    dsimp only [Validate]
    refine List.mem_append_left _ (List.mem_append_left _
      (List.mem_append_left _ (List.mem_append_left _ ?_)))
    rw [if_pos h]
    exact List.mem_singleton_self _
  · intro h
    dsimp only [Validate]
    refine List.mem_append_left _ (List.mem_append_left _
      (List.mem_append_left _ (List.mem_append_right _ ?_)))
    rw [if_pos h]
    exact List.mem_singleton_self _
  · intro h
    dsimp only [Validate]
    refine List.mem_append_left _ (List.mem_append_left _
      (List.mem_append_right _ ?_))
    rw [if_pos h]
    exact List.mem_singleton_self _
  · intro h
    dsimp only [Validate]
    refine List.mem_append_left _ (List.mem_append_right _ ?_)
    rw [if_pos h]
    exact List.mem_singleton_self _
  · intro h
    dsimp only [Validate]
    refine List.mem_append_right _ ?_
    rw [if_pos h]
    exact List.mem_singleton_self _
  · intro h1 h2 h3
    dsimp only [Validate]
    rw [if_neg (mt List.length_eq_zero.mp h1),
      if_neg (mt List.length_eq_zero.mp h2),
      if_neg (mt List.length_eq_zero.mp h3)]
    rfl

/-- A concrete constellation (ID 2 in region 1). -/
def constA : Constellation :=
  ⟨1, 2, "ConA", 0, 0, 0, 0, 0, 0, 0, 0, 0, none, 0⟩

/-- A small converted dataset: one region, one constellation, one system,
nothing else. -/
def convSmall : ConvertedData :=
  ⟨⟨[regA], [constA], [sysA]⟩, [], [], [], []⟩

/-- Witness for the amended C9: on a small dataset every threshold fires,
giving exactly five warnings (including the solar-system one) and no
error. -/
theorem validate_warning_checks_witness :
    convSmall.Universe.SolarSystems.length < 8000 ∧
      convSmall.Universe.SolarSystems ≠ [] ∧
      (Validate convSmall).Warnings.length = 5 ∧
      warnMsg "Solar system" 1 8000 ∈ (Validate convSmall).Warnings ∧
      (Validate convSmall).Errors = [] := by
  have h := validate_warning_checks convSmall
  refine ⟨by simp [convSmall], by simp [convSmall], ?_, ?_, ?_⟩
  · rw [h.1]
    simp [convSmall]
  · exact h.2.1 (by simp [convSmall])
  · exact h.2.2.2.2.2.2 (by simp [convSmall]) (by simp [convSmall])
      (by simp [convSmall])

/-- The empty converted dataset. -/
def convEmpty : ConvertedData :=
  ⟨⟨[], [], []⟩, [], [], [], []⟩

/-- Counterexample for C9 as stated: with all seven collections empty (and
thus below any positive real-world threshold), `Validate` emits only five
warnings — the item-group and wormhole-class collections have no
minimum-count check — together with the three foundational errors. -/
theorem validate_missing_group_check_counterexample :
    convEmpty.Universe.SolarSystems = [] ∧
      convEmpty.Universe.Regions = [] ∧
      convEmpty.Universe.Constellations = [] ∧
      convEmpty.InvTypes = [] ∧
      convEmpty.InvGroups = [] ∧
      convEmpty.SystemJumps = [] ∧
      convEmpty.WormholeClasses = [] ∧
      (Validate convEmpty).Warnings.length = 5 ∧
      (Validate convEmpty).Errors.length = 3 := by
  refine ⟨rfl, rfl, rfl, rfl, rfl, rfl, rfl, ?_, ?_⟩ <;> rfl

/-- A concrete parse result: region 1 (faction 7, zero bounds), its
constellation, and one faction-less member system at `(1, 2, 3)`. -/
def prX : ParseResult :=
  ⟨[regA], [constA], [sysB], [], [], [], []⟩

/-- Counterexample for C4 as stated: in `Transform`'s output on `prX`, the
single region (ID 1) has a member system (region ID 1) at `x = 1`, yet its
`XMin` is still the input value `0 ≠ 1` (no bounds aggregation), and the
member system still has no faction ID although its region carries faction 7
(no faction inheritance). -/
theorem transform_no_aggregation_counterexample :
    (Transform prX).Universe.Regions.map Region.RegionID = [1] ∧
      (Transform prX).Universe.SolarSystems.map SolarSystem.RegionID = [1] ∧
      (Transform prX).Universe.SolarSystems.map SolarSystem.X = [1] ∧
      (Transform prX).Universe.SolarSystems.map SolarSystem.Y = [2] ∧
      (Transform prX).Universe.SolarSystems.map SolarSystem.Z = [3] ∧
      (Transform prX).Universe.Regions.map Region.XMin = [0] ∧
      (0 : ℚ) ≠ 1 ∧
      (Transform prX).Universe.Regions.map Region.FactionID = [some 7] ∧
      (Transform prX).Universe.SolarSystems.map SolarSystem.FactionID =
        [none] := by
  exact ⟨rfl, rfl, rfl, rfl, rfl, rfl, by norm_num, rfl, rfl⟩

/-- Amended C4: `Transform` applies the security classifier, the sorts, the
type/group conversion and the jump enrichment, but neither the geometry
aggregator nor faction inheritance: its output regions are exactly the
input regions reordered (all fields, bounds included, untouched), and its
output systems are the input systems reordered with only `Security`
recomputed — faction ID and coordinates are preserved verbatim. -/
theorem transform_passthrough_amended :
    ∀ pr : ParseResult,
      (Transform pr).Universe.Regions = sortRegions pr.Regions ∧
        (Transform pr).Universe.Regions.Perm pr.Regions ∧
        (Transform pr).Universe.SolarSystems.Perm
          (pr.SolarSystems.map
            (fun s => { s with Security := GetTrueSecurity s.Security })) ∧
        ∀ s : SolarSystem,
          ({ s with Security := GetTrueSecurity s.Security } :
              SolarSystem).FactionID = s.FactionID ∧
            ({ s with Security := GetTrueSecurity s.Security } :
              SolarSystem).X = s.X ∧
            ({ s with Security := GetTrueSecurity s.Security } :
              SolarSystem).Y = s.Y ∧
            ({ s with Security := GetTrueSecurity s.Security } :
              SolarSystem).Z = s.Z := by
  intro pr
  exact ⟨rfl, List.perm_insertionSort regionLE pr.Regions,
    List.perm_insertionSort solarLE _, fun s => ⟨rfl, rfl, rfl, rfl⟩⟩

end WandererSDE
